import Mathlib

/-!
Shallow embedding of the cryptocurrency-exchange program (src/src/main.rs).

The program is a single `main`: load `.env` (dotenv), initialise logging
(log4rs, `.unwrap()`), parse the required `--currencies` flag with clap,
read the `CMS_API_KEY` environment variable (`.expect`), issue one HTTP GET
to the CoinMarketCap quotes endpoint, and on a 200 response deserialize the
JSON body into `CMCResponse` and write `out.csv`; on a non-200 status it
logs the status and body and returns `Ok(())`.

The embedding abstracts f64 values by a type parameter `α` together with a
rendering function `ρ : α → String` standing for Rust's `f64::to_string`.
Hash maps (`quote`, `data`) are modelled as association lists whose list
order stands for the (unspecified) iteration order of the Rust `HashMap`.
The outside world (success of dotenv / log4rs, the command line, the
environment variable, network failure, and the HTTP response) is an
explicit `Input` record; the observable behaviour of a run is an `Outcome`
(how the process terminates) together with `Effects` (the single optional
HTTP request, the optional contents written to `out.csv` as a list of
records, and the log events).
-/

namespace CryptoExchange

/-- Field-for-field model of the Rust struct `Quote` (main.rs lines 10-16);
`α` stands for `f64`. -/
structure Quote (α : Type) where
  price : α
  percent_change_7d : α
  volume_24h : α
  market_cap : α
deriving DecidableEq

/-- Field-for-field model of the Rust struct `Currency` (main.rs lines 18-25).
The `quote : HashMap<String, Quote>` becomes an association list. -/
structure Currency (α : Type) where
  id : Int
  name : String
  symbol : String
  slug : String
  quote : List (String × Quote α)
deriving DecidableEq

/-- Model of the Rust struct `CMCResponse` (main.rs lines 28-31); the
`data : HashMap<String, Currency>` becomes an association list whose order
stands for the iteration order of `.values()`. -/
structure CMCResponse (α : Type) where
  data : List (String × Currency α)
deriving DecidableEq

/-- The ways the modelled process can terminate. `err` corresponds to `main`
returning `Err(..)` (the `?` operator), `panicked` to a Rust panic
(`unwrap` / `expect` / `HashMap` index), `usageExit` to clap terminating the
process on a command-line error (missing required flag / missing value). -/
inductive PanicKind
  | log4rsInit
  | noApiKey
  | usdLookup
deriving DecidableEq

/-- Error kinds propagated out of `main` via `?`: `dotenv` from line 73,
`network` from `send().await?`, `schema` from `resp.json().await?`. -/
inductive ErrKind
  | dotenv
  | network
  | schema
deriving DecidableEq

/-- Process outcome of one run. -/
inductive Outcome
  | ok
  | err (e : ErrKind)
  | panicked (k : PanicKind)
  | usageExit
deriving DecidableEq

/-- Log events, modelling the `debug!` at line 90 and the `info!` calls at
lines 118 and 122, with their dynamic arguments. -/
inductive LogEvent
  | debugQuery (currencies : String)
  | statusBody (status : Nat) (body : String)
  | queriedWrote (currencies : String)
deriving DecidableEq

/-- The single HTTP request built at lines 94-98. -/
structure Request where
  url : String
  headers : List (String × String)
  query : List (String × String)
deriving DecidableEq

/-- Observable side effects of one run: the optional HTTP request sent, the
optional contents of `out.csv` as a list of CSV records, and the log. -/
structure Effects where
  request? : Option Request
  file? : Option (List (List String))
  logs : List LogEvent
deriving DecidableEq

/-- The HTTP response handed back by the server: its status code, the raw
body text (used by `resp.text()` on the non-200 path), and the result of
deserializing the body into `CMCResponse` (`none` models a serde failure of
`resp.json()`, i.e. a body that does not match the schema). -/
structure Response (α : Type) where
  status : Nat
  text : String
  parse : Option (CMCResponse α)
deriving DecidableEq

/-- Everything the run reads from the outside world. `currencies?` is the
list of values clap collected for `--currencies` (`none` when the flag is
absent); `cmsApiKey?` is the `CMS_API_KEY` variable after dotenv ran;
`netFail` injects a transport failure of `send().await`. -/
structure Input (α : Type) where
  dotenvOk : Bool
  log4rsOk : Bool
  currencies? : Option (List String)
  cmsApiKey? : Option String
  netFail : Bool
  response : Response α
deriving DecidableEq

def USD : String := "USD"

def CMC_URL : String := "https://pro-api.coinmarketcap.com/v1/cryptocurrency/quotes/latest"

def API_KEY_HEADER : String := "X-CMC_PRO_API_KEY"

def SYMBOL_PARAM : String := "symbol"

/-- The fixed header record written at line 106. -/
def HEADER_ROW : List String := ["name", "symbol", "price", "percent_change_7d"]

/-- One CSV data record (lines 108-113): name, symbol, rendered price,
rendered 7-day percent change. -/
def row {α : Type} (ρ : α → String) (c : Currency α) (q : Quote α) : List String :=
  [c.name, c.symbol, ρ q.price, ρ q.percent_change_7d]

/-- The writer loop of lines 107-114: for each currency, index
`quote["USD"]` and write a record. Returns the records written before any
panic, together with a flag saying whether the `HashMap` index panicked
(a missing key stops the loop at that element). -/
def emit {α : Type} (ρ : α → String) : List (Currency α) → List (List String) × Bool
  | [] => ([], false)
  | c :: rest =>
    match c.quote.lookup USD with
    | none => ([], true)
    | some q =>
      let p := emit ρ rest
      (row ρ c q :: p.1, p.2)

def noEffects : Effects := ⟨none, none, []⟩

/-- The whole of `main` (lines 72-125) as a function of the world `Input`.
Control flow is in source order: `dotenv::dotenv()?` (73), the log4rs
`unwrap` (74), clap's required `--currencies` flag (76-88; clap exits the
process when the flag is missing or has no value, and `value_of` yields the
FIRST collected value), the `debug!` (90), `CMS_API_KEY` with `.expect`
(93), build and send the request (94-99, `?` on transport failure), then the
status match (101-120), the trailing `info!` (122) and `Ok(())` (124). -/
def run {α : Type} (ρ : α → String) (inp : Input α) : Outcome × Effects :=
  if inp.dotenvOk = false then
    (.err .dotenv, noEffects)
  else if inp.log4rsOk = false then
    (.panicked .log4rsInit, noEffects)
  else
    match inp.currencies? with
    | none => (.usageExit, noEffects)
    | some [] => (.usageExit, noEffects)
    | some (currencies :: _) =>
      let logs0 : List LogEvent := [.debugQuery currencies]
      match inp.cmsApiKey? with
      | none => (.panicked .noApiKey, ⟨none, none, logs0⟩)
      | some key =>
        let req : Request := ⟨CMC_URL, [(API_KEY_HEADER, key)], [(SYMBOL_PARAM, currencies)]⟩
        if inp.netFail then
          (.err .network, ⟨some req, none, logs0⟩)
        else if inp.response.status = 200 then
          match inp.response.parse with
          | none => (.err .schema, ⟨some req, none, logs0⟩)
          | some env =>
            let p := emit ρ (env.data.map Prod.snd)
            if p.2 then
              (.panicked .usdLookup, ⟨some req, some (HEADER_ROW :: p.1), logs0⟩)
            else
              (.ok, ⟨some req, some (HEADER_ROW :: p.1),
                logs0 ++ [.queriedWrote currencies]⟩)
        else
          (.ok, ⟨some req, none,
            logs0 ++ [.statusBody inp.response.status inp.response.text,
                      .queriedWrote currencies]⟩)

/-! ### Basic lemmas about the writer loop -/

/-- When every currency has a `USD` quote the writer loop never panics and
writes exactly one record per currency, in iteration order. -/
theorem emit_all_usd {α : Type} (ρ : α → String) :
    ∀ cs : List (Currency α), (∀ c ∈ cs, (c.quote.lookup USD).isSome = true) →
    (emit ρ cs).2 = false ∧
      List.Forall₂ (fun c r => ∃ q, c.quote.lookup USD = some q ∧ r = row ρ c q)
        cs (emit ρ cs).1
  | [], _ => ⟨rfl, List.Forall₂.nil⟩
  | c :: rest, h => by
    have hc := h c (List.mem_cons_self c rest)
    obtain ⟨q, hq⟩ := Option.isSome_iff_exists.mp hc
    have ih := emit_all_usd ρ rest (fun c hc2 => h c (List.mem_cons_of_mem _ hc2))
    simp only [emit, hq]
    exact ⟨ih.1, List.Forall₂.cons ⟨q, hq, rfl⟩ ih.2⟩

/-- If some currency in the list has no `USD` quote, the writer loop ends in
the lookup panic. -/
theorem emit_missing_usd {α : Type} (ρ : α → String) :
    ∀ cs : List (Currency α), (∃ c ∈ cs, c.quote.lookup USD = none) →
    (emit ρ cs).2 = true
  | c :: rest, h => by
    rcases h with ⟨c0, hmem, hnone⟩
    rcases List.mem_cons.mp hmem with h0 | h0
    · subst h0
      simp only [emit, hnone]
    · cases hq : c.quote.lookup USD with
      | none => simp only [emit, hq]
      | some q =>
        have ih := emit_missing_usd ρ rest ⟨c0, h0, hnone⟩
        simp only [emit, hq]
        exact ih

/-! ### Concrete sample inputs (used by the witnesses). The number type is
instantiated at `String` with rendering `id`, so a quote's `price` field
holds directly the string the program would print for it. -/

def sampleQuote : Quote String :=
  ⟨"50000.5", "3.2", "1", "1"⟩

def sampleCurrency : Currency String :=
  ⟨1, "Bitcoin", "BTC", "bitcoin", [(USD, sampleQuote)]⟩

def sampleEnv : CMCResponse String :=
  ⟨[("BTC", sampleCurrency)]⟩

/-- A well-formed 200 run: flag present with one value, key set, body parses. -/
def sampleInput : Input String :=
  ⟨true, true, some (["BTC"]), some ("testkey"), false, ⟨200, "rawbody", some sampleEnv⟩⟩

/-- Like `sampleCurrency` but its quote map has an `EUR` key only. -/
def noUsdCurrency : Currency String :=
  ⟨2, "Ethereum", "ETH", "ethereum", [(("EUR"), sampleQuote)]⟩

def noUsdEnv : CMCResponse String :=
  ⟨[("BTC", sampleCurrency), (("ETH"), noUsdCurrency)]⟩

def noUsdInput : Input String :=
  ⟨true, true, some (["BTC,ETH"]), some ("testkey"), false, ⟨200, "rawbody", some noUsdEnv⟩⟩

/-! ### Claim theorems -/

/-- C1: for every 200 response whose body parses into the envelope shape
with every currency carrying a `USD` quote, the program writes `out.csv`
with exactly `N + 1` records: the fixed header `name, symbol, price,
percent_change_7d` followed by one data record per currency of the `data`
mapping, in iteration order. -/
theorem csv_has_header_and_one_row_per_currency {α : Type} (ρ : α → String)
    (inp : Input α) (env : CMCResponse α) (c : String) (cs : List String) (k : String)
    (h1 : inp.dotenvOk = true) (h2 : inp.log4rsOk = true)
    (h3 : inp.currencies? = some (c :: cs)) (h4 : inp.cmsApiKey? = some k)
    (h5 : inp.netFail = false) (h6 : inp.response.status = 200)
    (h7 : inp.response.parse = some env)
    (h8 : ∀ p ∈ env.data, ((p.2 : Currency α).quote.lookup USD).isSome = true) :
    ∃ rows, (run ρ inp).2.file? = some (HEADER_ROW :: rows) ∧
      rows.length = env.data.length ∧
      List.Forall₂ (fun (p : String × Currency α) r =>
        ∃ q, p.2.quote.lookup USD = some q ∧ r = row ρ p.2 q) env.data rows := by
  obtain ⟨d, l, cur, key, nf, resp⟩ := inp
  obtain ⟨st, tx, pr⟩ := resp
  simp only at h1 h2 h3 h4 h5 h6 h7
  subst h1 h2 h3 h4 h5 h6 h7
  have hall : ∀ cc ∈ env.data.map Prod.snd, ((cc : Currency α).quote.lookup USD).isSome = true := by
    intro cc hcc
    rcases List.mem_map.mp hcc with ⟨p, hp, hpe⟩
    subst hpe
    exact h8 p hp
  have hemit := emit_all_usd ρ (env.data.map Prod.snd) hall
  refine ⟨(emit ρ (env.data.map Prod.snd)).1, ?_, ?_, ?_⟩
  · simp only [run, hemit.1]
    rfl
  · have := hemit.2.length_eq
    simpa using this.symm
  · exact List.forall₂_map_left_iff.mp hemit.2

/-- Witness for C1 at the concrete `sampleInput` (one currency). -/
theorem csv_has_header_and_one_row_per_currency_witness :
    ∃ rows, (run id sampleInput).2.file? = some (HEADER_ROW :: rows) ∧
      rows.length = sampleEnv.data.length ∧
      List.Forall₂ (fun (p : String × Currency String) r =>
        ∃ q, p.2.quote.lookup USD = some q ∧ r = row id p.2 q) sampleEnv.data rows :=
  csv_has_header_and_one_row_per_currency id sampleInput sampleEnv
    ("BTC") [] ("testkey") rfl rfl rfl rfl rfl rfl rfl (by decide)

/-- C2: on a 200 response whose body parses but where some currency's quote
mapping lacks the `USD` key, the run ends in the unrecovered lookup panic. -/
theorem missing_usd_panics {α : Type} (ρ : α → String)
    (inp : Input α) (env : CMCResponse α) (c : String) (cs : List String) (k : String)
    (h1 : inp.dotenvOk = true) (h2 : inp.log4rsOk = true)
    (h3 : inp.currencies? = some (c :: cs)) (h4 : inp.cmsApiKey? = some k)
    (h5 : inp.netFail = false) (h6 : inp.response.status = 200)
    (h7 : inp.response.parse = some env)
    (h8 : ∃ p ∈ env.data, (p.2 : Currency α).quote.lookup USD = none) :
    (run ρ inp).1 = Outcome.panicked PanicKind.usdLookup := by
  obtain ⟨d, l, cur, key, nf, resp⟩ := inp
  obtain ⟨st, tx, pr⟩ := resp
  simp only at h1 h2 h3 h4 h5 h6 h7
  subst h1 h2 h3 h4 h5 h6 h7
  have hbad : (emit ρ (env.data.map Prod.snd)).2 = true := by
    rcases h8 with ⟨p, hp, hnone⟩
    exact emit_missing_usd ρ _ ⟨p.2, List.mem_map.mpr ⟨p, hp, rfl⟩, hnone⟩
  simp [run, hbad]

/-- Witness for C2 at the concrete `noUsdInput` (second currency lacks USD). -/
theorem missing_usd_panics_witness :
    (run id noUsdInput).1 = Outcome.panicked PanicKind.usdLookup :=
  missing_usd_panics id noUsdInput noUsdEnv ("BTC,ETH") [] ("testkey")
    rfl rfl rfl rfl rfl rfl rfl (by decide)

/-- A run where the server answers 503: used by the C3 witness. -/
def non200Input : Input String :=
  ⟨true, true, some (["BTC"]), some ("testkey"), false, ⟨503, "server error", none⟩⟩

/-- C3: on any non-200 status the program never consults the parsed body
(the run is invariant under changing the parse outcome), creates no output
file, logs the status code and raw body, and terminates returning success. -/
theorem non_200_logs_and_succeeds {α : Type} (ρ : α → String)
    (inp : Input α) (c : String) (cs : List String) (k : String)
    (h1 : inp.dotenvOk = true) (h2 : inp.log4rsOk = true)
    (h3 : inp.currencies? = some (c :: cs)) (h4 : inp.cmsApiKey? = some k)
    (h5 : inp.netFail = false) (h6 : inp.response.status ≠ 200) :
    (run ρ inp).1 = Outcome.ok ∧
    (run ρ inp).2.file? = none ∧
    (run ρ inp).2.logs =
      [LogEvent.debugQuery c,
       LogEvent.statusBody inp.response.status inp.response.text,
       LogEvent.queriedWrote c] ∧
    (∀ p' : Option (CMCResponse α),
      run ρ { inp with response := ⟨inp.response.status, inp.response.text, p'⟩ } =
        run ρ inp) := by
  obtain ⟨d, l, cur, key, nf, resp⟩ := inp
  obtain ⟨st, tx, pr⟩ := resp
  simp only at h1 h2 h3 h4 h5 h6
  subst h1 h2 h3 h4 h5
  refine ⟨?_, ?_, ?_, ?_⟩ <;> simp [run, h6]

/-- Witness for C3 at the concrete `non200Input` (status 503). -/
theorem non_200_logs_and_succeeds_witness :
    (run id non200Input).1 = Outcome.ok ∧
    (run id non200Input).2.file? = none ∧
    (run id non200Input).2.logs =
      [LogEvent.debugQuery ("BTC"),
       LogEvent.statusBody non200Input.response.status non200Input.response.text,
       LogEvent.queriedWrote ("BTC")] ∧
    (∀ p' : Option (CMCResponse String),
      run id { non200Input with
                 response := ⟨non200Input.response.status, non200Input.response.text, p'⟩ } =
        run id non200Input) :=
  non_200_logs_and_succeeds id non200Input ("BTC") [] ("testkey")
    rfl rfl rfl rfl rfl (by decide)

/-- A run where clap collected two separate values for `--currencies`:
used by the C4 counterexample. -/
def multiValueInput : Input String :=
  ⟨true, true, some (["BTC", "ETH"]), some ("testkey"), false, ⟨200, "rawbody", some sampleEnv⟩⟩

/-- C4 counterexample: with the two values `BTC` and `ETH` supplied to the
flag, the query parameter sent is `symbol=BTC` (the first value only), which
differs from the comma-join `BTC,ETH` of all supplied values. -/
theorem only_first_value_queried_counterexample :
    multiValueInput.currencies? = some (["BTC", "ETH"]) ∧
    (run id multiValueInput).2.request? =
      some ⟨CMC_URL, [(API_KEY_HEADER, "testkey")], [(SYMBOL_PARAM, "BTC")]⟩ ∧
    [(SYMBOL_PARAM, ("BTC" : String))] ≠
      [(SYMBOL_PARAM, String.intercalate (",") (["BTC", "ETH"]))] := by
  decide

/-- C4 amended: whenever the flag is present with at least one collected
value and the API key is set, exactly one GET request is issued, to the
fixed CoinMarketCap URL, with the `X-CMC_PRO_API_KEY` header set to the key
and the `symbol` query parameter equal to the FIRST collected value of
`--currencies` (itself commonly a comma-joined list); values after the
first are ignored. -/
theorem request_uses_first_flag_value {α : Type} (ρ : α → String)
    (inp : Input α) (c : String) (cs : List String) (k : String)
    (h1 : inp.dotenvOk = true) (h2 : inp.log4rsOk = true)
    (h3 : inp.currencies? = some (c :: cs)) (h4 : inp.cmsApiKey? = some k) :
    (run ρ inp).2.request? =
      some ⟨CMC_URL, [(API_KEY_HEADER, k)], [(SYMBOL_PARAM, c)]⟩ := by
  obtain ⟨d, l, cur, key, nf, resp⟩ := inp
  obtain ⟨st, tx, pr⟩ := resp
  simp only at h1 h2 h3 h4
  subst h1 h2 h3 h4
  cases nf with
  | true => simp [run]
  | false =>
    by_cases hst : st = 200
    · subst hst
      cases pr with
      | none => simp [run]
      | some env =>
        cases hbad : (emit ρ (env.data.map Prod.snd)).2 with
        | true => simp [run, hbad]
        | false => simp [run, hbad]
    · simp [run, hst]

/-- Witness for the amended C4 at `multiValueInput`. -/
theorem request_uses_first_flag_value_witness :
    (run id multiValueInput).2.request? =
      some ⟨CMC_URL, [(API_KEY_HEADER, "testkey")], [(SYMBOL_PARAM, "BTC")]⟩ :=
  request_uses_first_flag_value id multiValueInput ("BTC") (["ETH"]) ("testkey")
    rfl rfl rfl rfl

/-- A run with the `--currencies` flag absent: used by the C5 witness. -/
def noFlagInput : Input String :=
  ⟨true, true, none, some ("testkey"), false, ⟨200, "rawbody", some sampleEnv⟩⟩

/-- C5: when the flag is absent or the API key variable is unset, the
process never sends a request and does not terminate successfully. -/
theorem missing_flag_or_key_fails_before_network {α : Type} (ρ : α → String)
    (inp : Input α)
    (h : inp.currencies? = none ∨ inp.cmsApiKey? = none) :
    (run ρ inp).1 ≠ Outcome.ok ∧ (run ρ inp).2.request? = none := by
  obtain ⟨d, l, cur, key, nf, resp⟩ := inp
  obtain ⟨st, tx, pr⟩ := resp
  simp only at h
  cases d with
  | false => simp [run, noEffects]
  | true =>
    cases l with
    | false => simp [run, noEffects]
    | true =>
      rcases h with h | h
      · subst h
        simp [run, noEffects]
      · subst h
        cases cur with
        | none => simp [run, noEffects]
        | some vals =>
          cases vals with
          | nil => simp [run, noEffects]
          | cons c rest => simp [run]

/-- Witness for C5 at `noFlagInput` (flag absent, key present). -/
theorem missing_flag_or_key_fails_before_network_witness :
    (run id noFlagInput).1 ≠ Outcome.ok ∧ (run id noFlagInput).2.request? = none :=
  missing_flag_or_key_fails_before_network id noFlagInput (Or.inl rfl)

/-- A 200 run whose body fails to deserialize: used by the C6 witness. -/
def badBodyInput : Input String :=
  ⟨true, true, some (["BTC"]), some ("testkey"), false, ⟨200, "not json", none⟩⟩

/-- C6: a 200 response whose body does not deserialize into the envelope
shape makes the run abort with the schema error propagated to the caller,
and no output file is produced (the writer is only opened after parsing). -/
theorem schema_mismatch_aborts_no_file {α : Type} (ρ : α → String)
    (inp : Input α) (c : String) (cs : List String) (k : String)
    (h1 : inp.dotenvOk = true) (h2 : inp.log4rsOk = true)
    (h3 : inp.currencies? = some (c :: cs)) (h4 : inp.cmsApiKey? = some k)
    (h5 : inp.netFail = false) (h6 : inp.response.status = 200)
    (h7 : inp.response.parse = none) :
    (run ρ inp).1 = Outcome.err ErrKind.schema ∧ (run ρ inp).2.file? = none := by
  obtain ⟨d, l, cur, key, nf, resp⟩ := inp
  obtain ⟨st, tx, pr⟩ := resp
  simp only at h1 h2 h3 h4 h5 h6 h7
  subst h1 h2 h3 h4 h5 h6 h7
  simp [run]

/-- Witness for C6 at `badBodyInput`. -/
theorem schema_mismatch_aborts_no_file_witness :
    (run id badBodyInput).1 = Outcome.err ErrKind.schema ∧
    (run id badBodyInput).2.file? = none :=
  schema_mismatch_aborts_no_file id badBodyInput ("BTC") [] ("testkey")
    rfl rfl rfl rfl rfl rfl rfl

/-- A run where loading `.env` fails although the key variable is set:
used by the C9 witness. -/
def noDotenvInput : Input String :=
  ⟨false, true, some (["BTC"]), some ("testkey"), false, ⟨200, "rawbody", some sampleEnv⟩⟩

/-- C9: when `dotenv::dotenv()` fails, `main` returns the dotenv error with
no request sent, no file written and nothing logged, regardless of the
command line, the environment variable and the server — arguments are never
parsed and no network call is made. -/
theorem dotenv_failure_returns_error_first {α : Type} (ρ : α → String)
    (inp : Input α) (h : inp.dotenvOk = false) :
    run ρ inp = (Outcome.err ErrKind.dotenv, noEffects) := by
  obtain ⟨d, l, cur, key, nf, resp⟩ := inp
  simp only at h
  subst h
  simp [run]

/-- Witness for C9 at `noDotenvInput` (note `cmsApiKey?` is set there). -/
theorem dotenv_failure_returns_error_first_witness :
    run id noDotenvInput = (Outcome.err ErrKind.dotenv, noEffects) :=
  dotenv_failure_returns_error_first id noDotenvInput rfl

/-- A run where the log4rs config fails to load: used by the C10 witness. -/
def badLogConfigInput : Input String :=
  ⟨true, false, some (["BTC"]), some ("testkey"), false, ⟨200, "rawbody", some sampleEnv⟩⟩

/-- C10: when dotenv succeeds but initializing log4rs fails, the `unwrap`
panics: the run ends in a panic (not a returned error), with no request
sent, no file written and nothing logged — so before argument parsing and
before any network call. -/
theorem log4rs_failure_panics {α : Type} (ρ : α → String)
    (inp : Input α) (h1 : inp.dotenvOk = true) (h2 : inp.log4rsOk = false) :
    run ρ inp = (Outcome.panicked PanicKind.log4rsInit, noEffects) := by
  obtain ⟨d, l, cur, key, nf, resp⟩ := inp
  simp only at h1 h2
  subst h1 h2
  simp [run]

/-- Witness for C10 at `badLogConfigInput`. -/
theorem log4rs_failure_panics_witness :
    run id badLogConfigInput = (Outcome.panicked PanicKind.log4rsInit, noEffects) :=
  log4rs_failure_panics id badLogConfigInput rfl rfl

/-! ### Noninterference of the two unread quote fields (C8)

The writer only reads `price` and `percent_change_7d` of a quote; the
`visible` projections below keep exactly the data the output can depend
on, dropping `volume_24h` and `market_cap`. -/

/-- The part of a `Quote` the writer reads. -/
def Quote.visible {α : Type} (q : Quote α) : α × α :=
  (q.price, q.percent_change_7d)

/-- The part of a `Currency` the writer can read. -/
def Currency.visible {α : Type} (c : Currency α) :
    Int × String × String × String × List (String × (α × α)) :=
  (c.id, c.name, c.symbol, c.slug, c.quote.map (fun p => (p.1, p.2.visible)))

/-- The part of an envelope the writer can read. -/
def CMCResponse.visible {α : Type} (e : CMCResponse α) :
    List (String × (Int × String × String × String × List (String × (α × α)))) :=
  e.data.map (fun p => (p.1, p.2.visible))

/-- Association-list lookup commutes with mapping the values. -/
theorem lookup_map_visible {α : Type} (k : String) :
    ∀ l : List (String × Quote α),
      (l.map (fun p => (p.1, p.2.visible))).lookup k = (l.lookup k).map Quote.visible
  | [] => rfl
  | (k0, q0) :: rest => by
    cases h : (k == k0) with
    | true => simp [List.lookup, h]
    | false => simp [List.lookup, h, lookup_map_visible k rest]

/-- Two currency lists with the same visible parts drive the writer loop to
the same records and the same panic flag. -/
theorem emit_congr {α : Type} (ρ : α → String) :
    ∀ cs1 cs2 : List (Currency α),
      cs1.map Currency.visible = cs2.map Currency.visible →
      emit ρ cs1 = emit ρ cs2
  | [], [], _ => rfl
  | [], _ :: _, h => by simp at h
  | _ :: _, [], h => by simp at h
  | c1 :: r1, c2 :: r2, h => by
    simp only [List.map_cons, List.cons.injEq] at h
    obtain ⟨hv, ht⟩ := h
    have ih := emit_congr ρ r1 r2 ht
    simp only [Currency.visible, Prod.mk.injEq] at hv
    obtain ⟨_, hname, hsym, _, hq⟩ := hv
    have hlk : (c1.quote.lookup USD).map Quote.visible =
        (c2.quote.lookup USD).map Quote.visible := by
      rw [← lookup_map_visible, ← lookup_map_visible, hq]
    cases h1 : c1.quote.lookup USD with
    | none =>
      cases h2 : c2.quote.lookup USD with
      | none => simp only [emit, h1, h2]
      | some q2 => rw [h1, h2] at hlk; simp at hlk
    | some q1 =>
      cases h2 : c2.quote.lookup USD with
      | none => rw [h1, h2] at hlk; simp at hlk
      | some q2 =>
        rw [h1, h2] at hlk
        simp only [Option.map_some', Option.some.injEq, Quote.visible,
          Prod.mk.injEq] at hlk
        simp only [emit, h1, h2, ih]
        rw [row, row, hname, hsym, hlk.1, hlk.2]

/-- C8: two well-formed 200 responses whose envelopes agree on everything
except the `volume_24h` and `market_cap` values of some quotes (and whose
raw body text may also differ) produce identical runs — in particular the
contents written to `out.csv` are identical; the two deserialized fields
never influence the output. -/
theorem volume_market_cap_noninterference {α : Type} (ρ : α → String)
    (inp : Input α) (e1 e2 : CMCResponse α) (t2 : String)
    (hst : inp.response.status = 200) (hp : inp.response.parse = some e1)
    (hvis : e1.visible = e2.visible) :
    run ρ inp = run ρ { inp with response := ⟨inp.response.status, t2, some e2⟩ } := by
  obtain ⟨d, l, cur, key, nf, resp⟩ := inp
  obtain ⟨st, tx, pr⟩ := resp
  simp only at hst hp
  subst hst hp
  have hdata : (e1.data.map Prod.snd).map Currency.visible =
      (e2.data.map Prod.snd).map Currency.visible := by
    have h0 := congrArg (List.map Prod.snd) hvis
    simpa [CMCResponse.visible, List.map_map, Function.comp] using h0
  have hemit := emit_congr ρ (e1.data.map Prod.snd) (e2.data.map Prod.snd) hdata
  simp [run, hemit]

/-- The same response as `sampleInput`, except `volume_24h` and
`market_cap` are different: used by the C8 witness. -/
def sampleQuoteAltHidden : Quote String :=
  ⟨"50000.5", "3.2", "999999", "123456"⟩

def sampleCurrencyAltHidden : Currency String :=
  ⟨1, "Bitcoin", "BTC", "bitcoin", [(USD, sampleQuoteAltHidden)]⟩

def sampleEnvAltHidden : CMCResponse String :=
  ⟨[("BTC", sampleCurrencyAltHidden)]⟩

/-- Witness for C8: changing only the hidden fields of the sample run's
quote leaves the entire run unchanged. -/
theorem volume_market_cap_noninterference_witness :
    run id sampleInput =
      run id { sampleInput with
                 response := ⟨sampleInput.response.status, ("otherbody"),
                              some sampleEnvAltHidden⟩ } :=
  volume_market_cap_noninterference id sampleInput sampleEnv sampleEnvAltHidden
    ("otherbody") rfl rfl rfl

end CryptoExchange
